import Mathlib

/-!
Verification of the per-session connection orchestrator of a realtime
voice-agent backend: the turn state machine, bounded audio buffer,
speech-boundary debouncing, rate limiting, and the upstream connection
manager with circuit breaker and backoff reconnection.

The definitions below are shallow embeddings of the TypeScript sources:
  backend/src/agent/state.ts   (AgentState, AgentStateMachine)
  backend/src/audio/vad.ts     (VAD)
  backend/src/ws/client.ts     (ClientHandler)
  backend/src/ws/rate-limit.ts (RateLimiter)
  backend/src/ws/openai.ts     (OpenAIRealtimeConnection)
Timestamps (Date.now()) are modelled as integers passed explicitly to each
event handler; setTimeout callbacks are modelled as separate step functions
invoked explicitly with the values captured by the closure; the random draw
of Math.random() is an explicit rational argument in the interval [0, 1).
-/

/-- Turn states, from agent/state.ts. -/
inductive AgentState where
  | IDLE
  | LISTENING
  | THINKING
  | SPEAKING
deriving DecidableEq, Repr

/-- Valid transition table VALID_TRANSITIONS from agent/state.ts. -/
def VALID_TRANSITIONS : AgentState → List AgentState
  | .IDLE => [.LISTENING]
  | .LISTENING => [.THINKING]
  | .THINKING => [.SPEAKING, .IDLE]
  | .SPEAKING => [.IDLE]

/-- AgentStateMachine.transitionTo: an invalid target is rejected (state
unchanged, an error is logged); a valid target replaces the state. -/
def transitionTo (current target : AgentState) : AgentState :=
  if target ∈ VALID_TRANSITIONS current then target else current

/-- VAD state from audio/vad.ts: only the silence frame counter is mutable. -/
structure VAD where
  silenceFrameCount : ℕ
deriving DecidableEq, Repr

/-- VAD.reset from audio/vad.ts. -/
def VAD.reset (_v : VAD) : VAD := ⟨0⟩

/-- Outbound events to the client transport layer, the JSON messages
built in client.ts: an audio event with base64 payload and the
audio_done completion event. -/
inductive ClientMsg where
  | audio (data : String)
  | audioDone
deriving DecidableEq, Repr

/-- Externally visible effects of one ClientHandler step, in program order:
sends to the client socket, calls on the OpenAI connection object, calls
into the state machine, and timer arming. The transition action records a
transitionTo request (which the machine may reject); armConfirmTimer
records the setTimeout armed in onSpeechStarted together with the
captured timestamp. -/
inductive Effect where
  | sendClient (msg : ClientMsg)
  | openaiConnect
  | openaiAppend (chunk : List ℕ)
  | openaiCommit
  | openaiCreateResponse
  | openaiClearInput
  | transition (target : AgentState)
  | armConfirmTimer (captured : ℤ)
deriving DecidableEq, Repr

/-- Mutable fields of ClientHandler from ws/client.ts. The audio buffer is
the allocated byte array (none while the field is null); hasOpenAI models
the openai field being non-null, openaiIsConnected models the value of
openai.getIsConnected(), and isOpenAIConnected is the separate boolean
flag kept by the handler itself. -/
structure ClientHandler where
  vad : VAD
  state : AgentState
  hasOpenAI : Bool
  openaiIsConnected : Bool
  audioBuffer : Option (List ℕ)
  writeOffset : ℕ
  isOpenAIConnected : Bool
  isClosing : Bool
  speechStartedTime : Option ℤ
  speechEndedTime : Option ℤ
deriving DecidableEq, Repr

/-- Handler state as built by the ClientHandler constructor. -/
def initClientHandler : ClientHandler :=
  { vad := ⟨0⟩
    state := .IDLE
    hasOpenAI := false
    openaiIsConnected := false
    audioBuffer := none
    writeOffset := 0
    isOpenAIConnected := false
    isClosing := false
    speechStartedTime := none
    speechEndedTime := none }

/-- Debounce constant SPEAKING_CONFIRMATION_MS from client.ts. -/
def SPEAKING_CONFIRMATION_MS : ℤ := 200

/-- Debounce constant SPEECH_COOLDOWN_MS from client.ts. -/
def SPEECH_COOLDOWN_MS : ℤ := 300

/-- Default of the MAX_AUDIO_BUFFER_BYTES configuration value; the model
passes the capacity explicitly so that every configured value is covered. -/
def MAX_AUDIO_BUFFER_BYTES : ℕ := 10485760

/-- JavaScript truthiness of a nullable numeric timestamp: null and 0 are
falsy; used by the bare truthiness tests on speechStartedTime and
speechEndedTime in client.ts. -/
def jsTruthyTime : Option ℤ → Bool
  | none => false
  | some t => t != 0

/-- ClientHandler.wouldExceedBufferLimit. -/
def wouldExceedBufferLimit (cap : ℕ) (h : ClientHandler) (chunkSize : ℕ) : Bool :=
  decide (cap < h.writeOffset + chunkSize)

/-- ClientHandler.resetAudioBuffer: buffer nulled, offset zeroed. -/
def resetAudioBuffer (h : ClientHandler) : ClientHandler :=
  { h with audioBuffer := none, writeOffset := 0 }

/-- ClientHandler.markAsClosing. -/
def markAsClosing (h : ClientHandler) : ClientHandler :=
  { h with isClosing := true }

/-- Buffer.set(chunk, off): copy chunk into the buffer at the offset,
leaving the rest in place (callers guarantee it fits). -/
def setBytes (buf chunk : List ℕ) (off : ℕ) : List ℕ :=
  buf.take off ++ chunk ++ buf.drop (off + chunk.length)

/-- ClientHandler.ensureOpenAIConnected: already connected is a no-op; an
existing but disconnected connection gets connect() again; otherwise the
connection object is created and connect() is called. -/
def ensureOpenAIConnected (h : ClientHandler) : ClientHandler × List Effect :=
  if h.hasOpenAI ∧ h.openaiIsConnected then (h, [])
  else if h.hasOpenAI then (h, [.openaiConnect])
  else ({ h with hasOpenAI := true }, [.openaiConnect])

/-- ClientHandler.processAudio: overflow check first (reset plus
transitionTo IDLE on overflow), then the IDLE to LISTENING transition with
a fresh buffer, lazy allocation, the copy at the write offset, and the
forward to OpenAI when connected. -/
def processAudio (cap : ℕ) (h : ClientHandler) (chunk : List ℕ) :
    ClientHandler × List Effect :=
  if cap < h.writeOffset + chunk.length then
    ({ h with audioBuffer := none, writeOffset := 0,
              state := transitionTo h.state .IDLE },
     [.transition .IDLE])
  else
    let step1 : ClientHandler × List Effect :=
      if h.state = AgentState.IDLE then
        ({ h with state := transitionTo h.state .LISTENING,
                  audioBuffer := none, writeOffset := 0 },
         [.transition .LISTENING])
      else (h, [])
    let h1 := step1.1
    let buf := match h1.audioBuffer with
      | none => List.replicate cap 0
      | some b => b
    let h2 := { h1 with audioBuffer := some (setBytes buf chunk h1.writeOffset),
                        writeOffset := h1.writeOffset + chunk.length }
    if h2.hasOpenAI ∧ h2.isOpenAIConnected then
      (h2, step1.2 ++ [.openaiAppend chunk])
    else (h2, step1.2)

/-- ClientHandler.handleAudioChunk: ensure connection, drop silently in
THINKING or SPEAKING, otherwise processAudio. -/
def handleAudioChunk (cap : ℕ) (h : ClientHandler) (chunk : List ℕ) :
    ClientHandler × List Effect :=
  let e := ensureOpenAIConnected h
  if e.1.state = AgentState.THINKING ∨ e.1.state = AgentState.SPEAKING then
    (e.1, e.2)
  else
    let p := processAudio cap e.1 chunk
    (p.1, e.2 ++ p.2)

/-- ClientHandler.triggerResponse: only from LISTENING with a live
connection; below 3200 buffered bytes the trigger is dropped; otherwise
transition to THINKING and then commit plus response creation. -/
def triggerResponse (h : ClientHandler) : ClientHandler × List Effect :=
  if ¬ h.state = AgentState.LISTENING then (h, [])
  else if ¬ (h.hasOpenAI ∧ h.isOpenAIConnected) then (h, [])
  else if h.writeOffset < 3200 then (h, [])
  else
    ({ h with state := transitionTo h.state .THINKING },
     [.transition .THINKING, .openaiCommit, .openaiCreateResponse])

/-- The onSpeechStarted callback of client.ts: cooldown check, then in
IDLE record the provisional start and arm the confirmation timer capturing
now; in LISTENING clear the provisional timestamp; otherwise ignore. -/
def onSpeechStarted (h : ClientHandler) (now : ℤ) : ClientHandler × List Effect :=
  if jsTruthyTime h.speechEndedTime ∧
      now - h.speechEndedTime.getD 0 < SPEECH_COOLDOWN_MS then
    (h, [])
  else if h.state = AgentState.IDLE then
    ({ h with speechStartedTime := some now }, [.armConfirmTimer now])
  else if h.state = AgentState.LISTENING then
    ({ h with speechStartedTime := none }, [])
  else (h, [])

/-- Body of the confirmation setTimeout armed in onSpeechStarted: if the
captured timestamp is still the current provisional start and the session
is still IDLE, confirm the speech by transitioning to LISTENING. -/
def confirmSpeechTimer (h : ClientHandler) (captured : ℤ) :
    ClientHandler × List Effect :=
  if h.speechStartedTime = some captured ∧ h.state = AgentState.IDLE then
    ({ h with state := transitionTo h.state .LISTENING },
     [.transition .LISTENING])
  else (h, [])

/-- The onSpeechStopped callback of client.ts: in LISTENING start the
cooldown, clear the provisional start and invoke triggerResponse; in IDLE
with a pending (truthy) provisional start, reject the false positive by
discarding the buffered audio; otherwise ignore. -/
def onSpeechStopped (h : ClientHandler) (now : ℤ) : ClientHandler × List Effect :=
  if h.state = AgentState.LISTENING then
    triggerResponse { h with speechEndedTime := some now, speechStartedTime := none }
  else if h.state = AgentState.IDLE ∧ jsTruthyTime h.speechStartedTime then
    ({ h with audioBuffer := none, writeOffset := 0, speechStartedTime := none }, [])
  else (h, [])

/-- ClientHandler.handleOpenAIAudio: return immediately when closing; the
first delta in THINKING transitions to SPEAKING; the chunk is then
forwarded to the client through safeSend. -/
def handleOpenAIAudio (h : ClientHandler) (audioBase64 : String) :
    ClientHandler × List Effect :=
  if h.isClosing then (h, [])
  else
    let step1 : ClientHandler × List Effect :=
      if h.state = AgentState.THINKING then
        ({ h with state := transitionTo h.state .SPEAKING },
         [.transition .SPEAKING])
      else (h, [])
    (step1.1, step1.2 ++ [.sendClient (.audio audioBase64)])

/-- ClientHandler.handleResponseCompleted: return immediately when
closing; in SPEAKING or THINKING send audio_done, transition to IDLE,
reset the audio buffer, the VAD and the debounce state, and clear the
OpenAI input buffer when connected; in any other state do nothing. -/
def handleResponseCompleted (h : ClientHandler) : ClientHandler × List Effect :=
  if h.isClosing then (h, [])
  else if h.state = AgentState.SPEAKING ∨ h.state = AgentState.THINKING then
    let h1 := { h with state := transitionTo h.state .IDLE,
                       audioBuffer := none, writeOffset := 0,
                       vad := h.vad.reset,
                       speechStartedTime := none, speechEndedTime := none }
    if h.hasOpenAI ∧ h.isOpenAIConnected then
      (h1, [.sendClient .audioDone, .transition .IDLE, .openaiClearInput])
    else
      (h1, [.sendClient .audioDone, .transition .IDLE])
  else (h, [])

/-- ClientHandler.flushAudioBuffer: with a live connection and a non-empty
buffer, the prefix written so far is sent to OpenAI in one append. -/
def flushAudioBuffer (h : ClientHandler) : List Effect :=
  if ¬ h.hasOpenAI ∨ ¬ h.openaiIsConnected ∨ h.audioBuffer = none then []
  else if h.writeOffset = 0 then []
  else [.openaiAppend ((h.audioBuffer.getD []).take h.writeOffset)]

/-- The onConnected callback wiring of client.ts: the connection object
has just become connected, the handler flag is set, and buffered audio is
flushed. -/
def onOpenAIConnectedCb (h : ClientHandler) : ClientHandler × List Effect :=
  let h1 := { h with openaiIsConnected := true, isOpenAIConnected := true }
  (h1, flushAudioBuffer h1)

/-- Rate limiter state from ws/rate-limit.ts: a fixed-window counter. -/
structure RateLimiter where
  messageCount : ℕ
  windowStart : ℤ
  maxMessages : ℕ
  windowMs : ℤ
deriving DecidableEq, Repr

/-- RateLimiter.allow at the explicit current time: the window rolls over
first (count zeroed, window start moved) when windowMs has elapsed since
the window start; then the call rejects when the count has reached
maxMessages, otherwise increments the counter and accepts. -/
def RateLimiter.allow (rl : RateLimiter) (now : ℤ) : Bool × RateLimiter :=
  let rl1 := if rl.windowMs ≤ now - rl.windowStart then
      { rl with messageCount := 0, windowStart := now }
    else rl
  if rl1.maxMessages ≤ rl1.messageCount then (false, rl1)
  else (true, { rl1 with messageCount := rl1.messageCount + 1 })

/-- Sequential allow() calls at the given times, collecting the results. -/
def allowRun (rl : RateLimiter) : List ℤ → List Bool × RateLimiter
  | [] => ([], rl)
  | t :: ts =>
    let r := rl.allow t
    let rest := allowRun r.2 ts
    (r.1 :: rest.1, rest.2)

/-- Circuit breaker states from ws/openai.ts. -/
inductive CircuitBreakerState where
  | CLOSED
  | OPEN
  | HALF_OPEN
deriving DecidableEq, Repr

/-- Circuit breaker configuration from ws/openai.ts. -/
structure CircuitBreakerConfig where
  failureThreshold : ℕ
  resetTimeoutMs : ℤ
deriving DecidableEq, Repr

/-- Reconnection configuration from ws/openai.ts; the delay arithmetic is
modelled over the rationals. -/
structure ReconnectionConfig where
  maxAttempts : ℕ
  initialDelayMs : ℚ
  maxDelayMs : ℚ
  backoffMultiplier : ℚ
  jitterMs : ℚ
deriving DecidableEq, Repr

/-- DEFAULT_CIRCUIT_BREAKER from ws/openai.ts. -/
def DEFAULT_CIRCUIT_BREAKER : CircuitBreakerConfig :=
  { failureThreshold := 5, resetTimeoutMs := 60000 }

/-- DEFAULT_RECONNECTION from ws/openai.ts. -/
def DEFAULT_RECONNECTION : ReconnectionConfig :=
  { maxAttempts := 10
    initialDelayMs := 1000
    maxDelayMs := 30000
    backoffMultiplier := 2
    jitterMs := 500 }

/-- Mutable fields of OpenAIRealtimeConnection from ws/openai.ts that the
connection lifecycle logic reads and writes. -/
structure OpenAIRealtimeConnection where
  isConnected : Bool
  reconnectAttempts : ℕ
  isReconnecting : Bool
  shouldReconnect : Bool
  circuitBreakerState : CircuitBreakerState
  failureCount : ℕ
  lastFailureTime : ℤ
  circuitBreakerConfig : CircuitBreakerConfig
  reconnectionConfig : ReconnectionConfig
deriving DecidableEq, Repr

/-- Connection state as built by the constructor with default configs. -/
def initConnection : OpenAIRealtimeConnection :=
  { isConnected := false
    reconnectAttempts := 0
    isReconnecting := false
    shouldReconnect := false
    circuitBreakerState := .CLOSED
    failureCount := 0
    lastFailureTime := 0
    circuitBreakerConfig := DEFAULT_CIRCUIT_BREAKER
    reconnectionConfig := DEFAULT_RECONNECTION }

/-- canAttemptConnection from ws/openai.ts: CLOSED and HALF_OPEN allow the
attempt; OPEN allows it only once resetTimeoutMs has elapsed since the
last failure. -/
def canAttemptConnection (c : OpenAIRealtimeConnection) (now : ℤ) : Bool :=
  match c.circuitBreakerState with
  | .CLOSED => true
  | .OPEN => decide (c.circuitBreakerConfig.resetTimeoutMs ≤ now - c.lastFailureTime)
  | .HALF_OPEN => true

/-- Timer scheduled by scheduleReconnection: either the backoff delay
computed with jitter, or the cooldown remainder while the breaker is
open (that timer moves the breaker to HALF_OPEN when it fires). -/
inductive Scheduled where
  | backoff (delayMs : ℚ)
  | cooldown (remainingMs : ℤ)
deriving DecidableEq, Repr

/-- scheduleReconnection from ws/openai.ts, with the Math.random() draw r
passed explicitly: while the breaker blocks the attempt, a timer for the
remaining cooldown is armed and no counter changes; otherwise the delay is
the capped exponential backoff plus uniform jitter clamped at zero, the
attempt counter is incremented and the reconnecting flag set. -/
def scheduleReconnection (c : OpenAIRealtimeConnection) (now : ℤ) (r : ℚ) :
    OpenAIRealtimeConnection × Scheduled :=
  if ¬ canAttemptConnection c now then
    let cooldownEnd := c.lastFailureTime + c.circuitBreakerConfig.resetTimeoutMs
    (c, .cooldown (max 0 (cooldownEnd - now)))
  else
    let baseDelay :=
      min (c.reconnectionConfig.initialDelayMs *
             c.reconnectionConfig.backoffMultiplier ^ c.reconnectAttempts)
          c.reconnectionConfig.maxDelayMs
    let jitter := r * c.reconnectionConfig.jitterMs * 2 - c.reconnectionConfig.jitterMs
    let delay := max 0 (baseDelay + jitter)
    ({ c with isReconnecting := true, reconnectAttempts := c.reconnectAttempts + 1 },
     .backoff delay)

/-- openCircuitBreaker from ws/openai.ts. -/
def openCircuitBreaker (c : OpenAIRealtimeConnection) (now : ℤ) :
    OpenAIRealtimeConnection :=
  { c with circuitBreakerState := .OPEN, lastFailureTime := now }

/-- resetCircuitBreaker from ws/openai.ts. -/
def resetCircuitBreaker (c : OpenAIRealtimeConnection) : OpenAIRealtimeConnection :=
  { c with circuitBreakerState := .CLOSED, failureCount := 0 }

/-- handleConnectionError from ws/openai.ts: record the failure, open the
breaker at the threshold, then schedule a reconnection when enabled and
under the attempt cap; at the cap the terminal failure is reported once
through the error callback (the returned Bool). -/
def handleConnectionError (c : OpenAIRealtimeConnection) (now : ℤ) (r : ℚ) :
    OpenAIRealtimeConnection × Option Scheduled × Bool :=
  let c1 := { c with isConnected := false,
                     failureCount := c.failureCount + 1,
                     lastFailureTime := now }
  let c2 := if c1.circuitBreakerConfig.failureThreshold ≤ c1.failureCount then
      openCircuitBreaker c1 now
    else c1
  if c2.shouldReconnect ∧ c2.reconnectAttempts < c2.reconnectionConfig.maxAttempts then
    let s := scheduleReconnection c2 now r
    (s.1, some s.2, false)
  else if c2.reconnectionConfig.maxAttempts ≤ c2.reconnectAttempts then
    (c2, none, true)
  else (c2, none, false)

/-- Conn component of one connection failure (the jitter draw does not
influence any connection field). -/
def failStep (c : OpenAIRealtimeConnection) (now : ℤ) : OpenAIRealtimeConnection :=
  (handleConnectionError c now 0).1

/-- Body of the ws open handler in connect(): mark connected, reset the
circuit breaker and the reconnection counters. -/
def handleOpen (c : OpenAIRealtimeConnection) : OpenAIRealtimeConnection :=
  { resetCircuitBreaker c with
      isConnected := true, reconnectAttempts := 0, isReconnecting := false }

/-- Upstream messages consumed by handleMessage in ws/openai.ts. -/
inductive OpenAIRealtimeMessage where
  | audioDelta (delta : Option String)
  | responseCompleted
  | speechStarted
  | speechStopped
  | errorEvent (code msg : String)
  | responseDone
  | otherType (t : String)
deriving DecidableEq, Repr

/-- Callback invoked by handleMessage, with its payload. -/
inductive CallbackEvent where
  | onAudioDelta (delta : String)
  | onSpeechStarted
  | onSpeechStopped
  | onError (message : String)
  | onResponseCompleted
deriving DecidableEq, Repr

/-- handleMessage dispatch from ws/openai.ts: audio deltas, speech
boundary events and response.done invoke their callbacks; the two benign
error codes are swallowed with a warning; every other error code is
escalated to the error callback with code and message; the
response.completed type and unknown types are only logged. -/
def handleMessage : OpenAIRealtimeMessage → Option CallbackEvent
  | .audioDelta (some d) => some (.onAudioDelta d)
  | .audioDelta none => none
  | .responseCompleted => none
  | .speechStarted => some .onSpeechStarted
  | .speechStopped => some .onSpeechStopped
  | .errorEvent code msg =>
    if code = "input_audio_buffer_commit_empty" then none
    else if code = "conversation_already_has_active_response" then none
    else some (.onError (code ++ ": " ++ msg))
  | .responseDone => some .onResponseCompleted
  | .otherType _ => none

/-- Handler in LISTENING with a live upstream connection and the given
number of buffered bytes. -/
def listeningConnected (off : ℕ) : ClientHandler :=
  { initClientHandler with
      state := .LISTENING, hasOpenAI := true, openaiIsConnected := true,
      isOpenAIConnected := true, writeOffset := off }

/-- Handler with a live upstream connection in the given turn state. -/
def connectedIn (s : AgentState) : ClientHandler :=
  { initClientHandler with
      state := s, hasOpenAI := true, openaiIsConnected := true,
      isOpenAIConnected := true }

/-- Session state reached by an honest event sequence: the connection is
created and connects, a 3200-byte chunk arrives (IDLE to LISTENING),
speech stops (LISTENING to THINKING, commit and response request), one
audio delta arrives (THINKING to SPEAKING), and response done returns the
session to IDLE with the upstream still connected. -/
def c1AfterTurn : ClientHandler :=
  (handleResponseCompleted
    (handleOpenAIAudio
      (onSpeechStopped
        (handleAudioChunk 3200
          (onOpenAIConnectedCb (ensureOpenAIConnected initClientHandler).1).1
          (List.replicate 3200 0)).1
        100500).1
      "a").1).1

/-- Handler exhibiting the C2 failing input: LISTENING with 3000 bytes
already buffered against a 3200-byte capacity. -/
def c2Overflowing : ClientHandler :=
  { initClientHandler with
      state := .LISTENING, hasOpenAI := true, openaiIsConnected := true,
      isOpenAIConnected := true,
      audioBuffer := some (List.replicate 3200 0), writeOffset := 3000 }

/-- Handler in IDLE with no pending debounce state and a live upstream
connection, as at the start of the C3 scenarios. -/
def debouncedIdle : ClientHandler :=
  { initClientHandler with
      hasOpenAI := true, openaiIsConnected := true, isOpenAIConnected := true }

/-- Connection state right after a successful connect (the ws open handler
ran with reconnection enabled for the session). -/
def freshConnected : OpenAIRealtimeConnection :=
  handleOpen { initConnection with shouldReconnect := true }

/-- Five consecutive connection failures at the given times. -/
def fail5 (t1 t2 t3 t4 t5 : ℤ) : OpenAIRealtimeConnection :=
  failStep (failStep (failStep (failStep (failStep freshConnected t1) t2) t3) t4) t5

/-- Connection state after n failures below the threshold, last at t. -/
def midConn (n : ℕ) (t : ℤ) : OpenAIRealtimeConnection :=
  { isConnected := false, reconnectAttempts := n, isReconnecting := true,
    shouldReconnect := true, circuitBreakerState := .CLOSED, failureCount := n,
    lastFailureTime := t, circuitBreakerConfig := DEFAULT_CIRCUIT_BREAKER,
    reconnectionConfig := DEFAULT_RECONNECTION }

/-- Connection state once the breaker has opened at threshold, last
failure at t. -/
def openedConn (t : ℤ) : OpenAIRealtimeConnection :=
  { isConnected := false, reconnectAttempts := 4, isReconnecting := true,
    shouldReconnect := true, circuitBreakerState := .OPEN, failureCount := 5,
    lastFailureTime := t, circuitBreakerConfig := DEFAULT_CIRCUIT_BREAKER,
    reconnectionConfig := DEFAULT_RECONNECTION }

/-- Connection state after a sixth failure at t with the breaker open. -/
def openedConn6 (t : ℤ) : OpenAIRealtimeConnection :=
  { isConnected := false, reconnectAttempts := 4, isReconnecting := true,
    shouldReconnect := true, circuitBreakerState := .OPEN, failureCount := 6,
    lastFailureTime := t, circuitBreakerConfig := DEFAULT_CIRCUIT_BREAKER,
    reconnectionConfig := DEFAULT_RECONNECTION }

/-- C5: from LISTENING with a live upstream connection, a response trigger
with fewer than 3200 buffered bytes is dropped silently (handler unchanged
and no effect emitted, so the state remains LISTENING and no upstream call
is made); with at least 3200 bytes the state becomes THINKING and the
effect list places the THINKING transition strictly before the commit and
the response request. -/
theorem C5_trigger_response (h : ClientHandler)
    (hS : h.state = AgentState.LISTENING)
    (hO : h.hasOpenAI = true) (hC : h.isOpenAIConnected = true) :
    (h.writeOffset < 3200 → triggerResponse h = (h, [])) ∧
    (3200 ≤ h.writeOffset →
      (triggerResponse h).1 = { h with state := AgentState.THINKING } ∧
      (triggerResponse h).2 =
        [Effect.transition .THINKING, Effect.openaiCommit,
         Effect.openaiCreateResponse]) := by
  constructor
  · intro hlt
    simp [triggerResponse, hS, hO, hC, hlt]
  · intro hge
    have hnlt : ¬ h.writeOffset < 3200 := by omega
    simp [triggerResponse, hS, hO, hC, hnlt, transitionTo, VALID_TRANSITIONS]

/-- Witness for C5 at 1000 and at 5000 buffered bytes. -/
theorem C5_trigger_response_witness :
    triggerResponse (listeningConnected 1000) = (listeningConnected 1000, []) ∧
    (triggerResponse (listeningConnected 5000)).1 =
      { listeningConnected 5000 with state := AgentState.THINKING } ∧
    (triggerResponse (listeningConnected 5000)).2 =
      [Effect.transition .THINKING, Effect.openaiCommit,
       Effect.openaiCreateResponse] := by
  have h1 := C5_trigger_response (listeningConnected 1000) rfl rfl rfl
  have h2 := C5_trigger_response (listeningConnected 5000) rfl rfl rfl
  exact ⟨h1.1 (by decide), (h2.2 (by decide)).1, (h2.2 (by decide)).2⟩

/-- C10: once markAsClosing has run, the upstream audio-delta handler and
the response-completed handler return immediately: the handler record is
unchanged in every field and no effect (no send, no transition, no
upstream call) is produced. -/
theorem C10_closing_handlers_frozen (h : ClientHandler) (audioBase64 : String) :
    handleOpenAIAudio (markAsClosing h) audioBase64 = (markAsClosing h, []) ∧
    handleResponseCompleted (markAsClosing h) = (markAsClosing h, []) := by
  constructor <;> simp [handleOpenAIAudio, handleResponseCompleted, markAsClosing]

/-- C9: the two benign upstream error codes are swallowed (the error
callback is never invoked), and every other error code reaches the error
callback carrying the code and the message. -/
theorem C9_benign_error_codes :
    (∀ msg : String,
      handleMessage (.errorEvent "input_audio_buffer_commit_empty" msg) = none) ∧
    (∀ msg : String,
      handleMessage (.errorEvent "conversation_already_has_active_response" msg)
        = none) ∧
    (∀ code msg : String,
      code ≠ "input_audio_buffer_commit_empty" →
      code ≠ "conversation_already_has_active_response" →
      handleMessage (.errorEvent code msg) =
        some (.onError (code ++ ": " ++ msg))) := by
  refine ⟨fun msg => by simp [handleMessage],
          fun msg => by simp [handleMessage], ?_⟩
  intro code msg h1 h2
  simp [handleMessage, h1, h2]

/-- Witness for C9 at a non-benign code. -/
theorem C9_benign_error_codes_witness :
    handleMessage (.errorEvent "rate_limit_exceeded" "slow down") =
      some (.onError ("rate_limit_exceeded" ++ ": " ++ "slow down")) :=
  C9_benign_error_codes.2.2 "rate_limit_exceeded" "slow down"
    (by decide) (by decide)

/-- C6: on response-completed with the session not closing and the
upstream connected, SPEAKING or THINKING yields the audio_done send, the
transition to IDLE, the buffer, VAD and debounce resets and the upstream
clear-input-buffer call; in IDLE the event is a no-op. -/
theorem C6_response_completed (h : ClientHandler)
    (hNC : h.isClosing = false) (hO : h.hasOpenAI = true)
    (hC : h.isOpenAIConnected = true) :
    ((h.state = AgentState.SPEAKING ∨ h.state = AgentState.THINKING) →
      handleResponseCompleted h =
        ({ h with state := AgentState.IDLE, audioBuffer := none, writeOffset := 0,
                  vad := ⟨0⟩, speechStartedTime := none, speechEndedTime := none },
         [Effect.sendClient .audioDone, Effect.transition .IDLE,
          Effect.openaiClearInput])) ∧
    (h.state = AgentState.IDLE → handleResponseCompleted h = (h, [])) := by
  constructor
  · intro hst
    rcases hst with hst | hst <;>
      simp [handleResponseCompleted, hNC, hO, hC, hst, transitionTo,
            VALID_TRANSITIONS, VAD.reset]
  · intro hst
    simp [handleResponseCompleted, hNC, hst]

/-- Witness for C6 in SPEAKING and in IDLE. -/
theorem C6_response_completed_witness :
    handleResponseCompleted (connectedIn .SPEAKING) =
      ({ connectedIn AgentState.SPEAKING with
          state := AgentState.IDLE, audioBuffer := none,
          writeOffset := 0, vad := ⟨0⟩, speechStartedTime := none,
          speechEndedTime := none },
       [Effect.sendClient .audioDone, Effect.transition .IDLE,
        Effect.openaiClearInput]) ∧
    handleResponseCompleted (connectedIn .IDLE) = (connectedIn .IDLE, []) := by
  have h1 := C6_response_completed (connectedIn .SPEAKING) rfl rfl rfl
  have h2 := C6_response_completed (connectedIn .IDLE) rfl rfl rfl
  exact ⟨h1.1 (Or.inl rfl), h2.2 rfl⟩

/-- C1 (amended): on an upstream audio-delta the chunk is forwarded to the
transport layer whenever the session is not closing, regardless of the turn
state; the only turn-state effect is that THINKING transitions to SPEAKING
on the first delta. The original claim (audio forwarded only in THINKING
or SPEAKING) is refuted by C1_counterexample below. -/
theorem C1_audio_always_forwarded (h : ClientHandler) (audioBase64 : String)
    (hNC : h.isClosing = false) :
    (handleOpenAIAudio h audioBase64).2 =
      (if h.state = AgentState.THINKING then [Effect.transition .SPEAKING] else [])
        ++ [Effect.sendClient (.audio audioBase64)] ∧
    (handleOpenAIAudio h audioBase64).1.state =
      (if h.state = AgentState.THINKING then AgentState.SPEAKING else h.state) := by
  by_cases hst : h.state = AgentState.THINKING <;>
    simp [handleOpenAIAudio, hNC, hst, transitionTo, VALID_TRANSITIONS]

/-- Witness for C1_audio_always_forwarded on the initial handler. -/
theorem C1_audio_always_forwarded_witness :
    (handleOpenAIAudio initClientHandler "x").2 =
      (if initClientHandler.state = AgentState.THINKING then
        [Effect.transition .SPEAKING] else [])
        ++ [Effect.sendClient (.audio "x")] ∧
    (handleOpenAIAudio initClientHandler "x").1.state =
      (if initClientHandler.state = AgentState.THINKING then AgentState.SPEAKING
       else initClientHandler.state) :=
  C1_audio_always_forwarded initClientHandler "x" rfl

/-- Counterexample to C1 as stated: in the reachable post-turn state the
session is IDLE (neither THINKING nor SPEAKING) and not closing, yet a
late upstream audio-delta is still forwarded to the transport layer as an
audio event. -/
theorem C1_counterexample :
    c1AfterTurn.state = AgentState.IDLE ∧
    c1AfterTurn.state ≠ AgentState.THINKING ∧
    c1AfterTurn.state ≠ AgentState.SPEAKING ∧
    c1AfterTurn.isClosing = false ∧
    (handleOpenAIAudio c1AfterTurn "b").2 =
      [Effect.sendClient (.audio "b")] := by
  have hc : c1AfterTurn.state = AgentState.IDLE ∧ c1AfterTurn.isClosing = false := by
    simp [-List.reduceReplicate, c1AfterTurn, handleResponseCompleted,
          handleOpenAIAudio, onSpeechStopped, triggerResponse, handleAudioChunk,
          ensureOpenAIConnected, processAudio, onOpenAIConnectedCb,
          flushAudioBuffer, initClientHandler, transitionTo, VALID_TRANSITIONS,
          VAD.reset]
  refine ⟨hc.1, by simp [hc.1], by simp [hc.1], hc.2, ?_⟩
  simp [handleOpenAIAudio, hc.1, hc.2]

/-- C2 failing-input evaluation: a 300-byte chunk overflows the 3200-byte
capacity, the buffer is reset to writeOffset zero and a transitionTo IDLE
is requested, but the state machine rejects IDLE as a target from
LISTENING, so the session remains in LISTENING instead of being forced
back to IDLE as the claim and the state-machine call site intend. -/
theorem C2_overflow_keeps_listening :
    (processAudio 3200 c2Overflowing (List.replicate 300 0)).1.writeOffset = 0 ∧
    (processAudio 3200 c2Overflowing (List.replicate 300 0)).1.audioBuffer = none ∧
    (processAudio 3200 c2Overflowing (List.replicate 300 0)).2 =
      [Effect.transition .IDLE] ∧
    (processAudio 3200 c2Overflowing (List.replicate 300 0)).1.state =
      AgentState.LISTENING := by
  simp [-List.reduceReplicate, processAudio, c2Overflowing, initClientHandler,
        transitionTo, VALID_TRANSITIONS]

/-- C8: whenever the circuit breaker permits the attempt, the scheduled
reconnection delay under the default configuration is exactly
max(0, min(1000 * 2 ^ attempt, 30000) + (r * 2 * 500 - 500)) for the
0-based attempt counter and the uniform draw r, and the default attempt
cap is 10. -/
theorem C8_backoff_delay (c : OpenAIRealtimeConnection) (now : ℤ) (r : ℚ)
    (hAttempt : canAttemptConnection c now = true)
    (hCfg : c.reconnectionConfig = DEFAULT_RECONNECTION) :
    (scheduleReconnection c now r).2 =
      .backoff (max 0 (min (1000 * 2 ^ c.reconnectAttempts) 30000 +
        (r * 2 * 500 - 500))) ∧
    DEFAULT_RECONNECTION.maxAttempts = 10 := by
  have hj : (r * (500 : ℚ) * 2 - 500) = r * 2 * 500 - 500 := by ring
  constructor
  · simp [scheduleReconnection, hAttempt, hCfg, DEFAULT_RECONNECTION, hj]
  · rfl

/-- Witness for C8 on the fresh connection with r = 1/4. -/
theorem C8_backoff_delay_witness :
    (scheduleReconnection initConnection 0 (1/4)).2 =
      .backoff (max 0 (min (1000 * 2 ^ initConnection.reconnectAttempts) 30000 +
        ((1/4 : ℚ) * 2 * 500 - 500))) ∧
    DEFAULT_RECONNECTION.maxAttempts = 10 :=
  C8_backoff_delay initConnection 0 (1/4) rfl rfl

/-- C3: from IDLE with no pending debounce state, a speech-started event at
100000 ms followed by speech-stopped only 50 ms later never yields a
LISTENING transition (the confirmation timer finds the provisional start
cleared and fires as a no-op); a speech-started event whose confirmation
timer fires at 200 ms (speech sustained) with the utterance audio arriving
while listening, followed by speech-stopped at 500 ms, yields IDLE to
LISTENING at the confirmation and LISTENING to THINKING at the stop. -/
theorem C3_debounce (cap : ℕ) (chunk : List ℕ)
    (hlen : 3200 ≤ chunk.length) (hcap : chunk.length ≤ cap) :
    (let n1 := (onSpeechStarted debouncedIdle 100000).1
     let n2 := (onSpeechStopped n1 100050).1
     let n3 := (confirmSpeechTimer n2 100000).1
     n3.state = AgentState.IDLE ∧
     (onSpeechStarted debouncedIdle 100000).2 = [Effect.armConfirmTimer 100000] ∧
     (onSpeechStopped n1 100050).2 = [] ∧
     (confirmSpeechTimer n2 100000).2 = []) ∧
    (let p1 := (onSpeechStarted debouncedIdle 100000).1
     let p2 := (confirmSpeechTimer p1 100000).1
     let p3 := (handleAudioChunk cap p2 chunk).1
     let p4 := (onSpeechStopped p3 100500).1
     p2.state = AgentState.LISTENING ∧ p4.state = AgentState.THINKING) := by
  constructor
  · simp [onSpeechStarted, onSpeechStopped, confirmSpeechTimer, triggerResponse,
          debouncedIdle, initClientHandler, jsTruthyTime, SPEECH_COOLDOWN_MS]
  · have hnof : ¬ (cap < chunk.length) := by omega
    have hnof0 : ¬ (cap < 0 + chunk.length) := by omega
    have hnlt : ¬ (chunk.length < 3200) := by omega
    simp [onSpeechStarted, confirmSpeechTimer, handleAudioChunk,
          ensureOpenAIConnected, processAudio, onSpeechStopped, triggerResponse,
          debouncedIdle, initClientHandler, jsTruthyTime, SPEECH_COOLDOWN_MS,
          transitionTo, VALID_TRANSITIONS, hnof, hnof0, hnlt]

/-- Witness for C3 with capacity 3200 and a 3200-byte chunk. -/
theorem C3_debounce_witness :
    (3200 ≤ (List.replicate 3200 (0 : ℕ)).length ∧
     (List.replicate 3200 (0 : ℕ)).length ≤ 3200) ∧
    ((confirmSpeechTimer (onSpeechStarted debouncedIdle 100000).1 100000).1.state
        = AgentState.LISTENING ∧
     (onSpeechStopped
        (handleAudioChunk 3200
          (confirmSpeechTimer (onSpeechStarted debouncedIdle 100000).1 100000).1
          (List.replicate 3200 0)).1
        100500).1.state = AgentState.THINKING) := by
  have h := C3_debounce 3200 (List.replicate 3200 0)
    (by simp [-List.reduceReplicate]) (by simp [-List.reduceReplicate])
  exact ⟨⟨by simp [-List.reduceReplicate], by simp [-List.reduceReplicate]⟩, h.2⟩

/-- One connection failure while the breaker is CLOSED and still below the
threshold, with reconnection enabled and under the attempt cap: the
failure is recorded and a backoff reconnection is scheduled. -/
theorem failStep_closed (c : OpenAIRealtimeConnection) (t : ℤ)
    (hst : c.circuitBreakerState = .CLOSED)
    (hfc : c.failureCount + 1 < c.circuitBreakerConfig.failureThreshold)
    (hsr : c.shouldReconnect = true)
    (hra : c.reconnectAttempts < c.reconnectionConfig.maxAttempts) :
    failStep c t =
      { c with isConnected := false, failureCount := c.failureCount + 1,
               lastFailureTime := t, isReconnecting := true,
               reconnectAttempts := c.reconnectAttempts + 1 } := by
  have hth : ¬ c.circuitBreakerConfig.failureThreshold ≤ c.failureCount + 1 := by
    omega
  simp [failStep, handleConnectionError, hth, hsr, hra, scheduleReconnection,
        canAttemptConnection, hst, openCircuitBreaker]

/-- One connection failure that reaches (or stays past) the threshold
opens the breaker; with a positive reset timeout the immediately following
scheduling decision can only arm the cooldown timer, so no connection
field beyond the failure bookkeeping changes. -/
theorem failStep_opens (c : OpenAIRealtimeConnection) (t : ℤ)
    (hfc : c.circuitBreakerConfig.failureThreshold ≤ c.failureCount + 1)
    (hreset : 0 < c.circuitBreakerConfig.resetTimeoutMs) :
    failStep c t =
      { c with isConnected := false, failureCount := c.failureCount + 1,
               lastFailureTime := t, circuitBreakerState := .OPEN } := by
  have hnr : ¬ c.circuitBreakerConfig.resetTimeoutMs ≤ t - t := by omega
  simp only [failStep, handleConnectionError, openCircuitBreaker]
  simp only [hfc, if_true, reduceIte]
  simp [scheduleReconnection, canAttemptConnection, hnr, hreset]
  split
  · rfl
  · split <;> rfl

/-- Explicit form of the connection after five consecutive failures. -/
theorem fail5_eq (t1 t2 t3 t4 t5 : ℤ) :
    fail5 t1 t2 t3 t4 t5 = openedConn t5 := by
  have hmid : ∀ n : ℕ, ∀ u v : ℤ, n + 1 < 5 →
      failStep (midConn n u) v = midConn (n + 1) v := by
    intro n u v hn
    refine (failStep_closed (midConn n u) v rfl ?_ rfl ?_).trans rfl
    · simpa [midConn, DEFAULT_CIRCUIT_BREAKER] using hn
    · simp [midConn, DEFAULT_RECONNECTION]
      omega
  have e1 : failStep freshConnected t1 = midConn 1 t1 :=
    (failStep_closed freshConnected t1 rfl (by decide) rfl (by decide)).trans rfl
  have e2 : failStep (midConn 1 t1) t2 = midConn 2 t2 := hmid 1 t1 t2 (by omega)
  have e3 : failStep (midConn 2 t2) t3 = midConn 3 t3 := hmid 2 t2 t3 (by omega)
  have e4 : failStep (midConn 3 t3) t4 = midConn 4 t4 := hmid 3 t3 t4 (by omega)
  have e5 : failStep (midConn 4 t4) t5 = openedConn t5 :=
    (failStep_opens (midConn 4 t4) t5
      (by simp [midConn, DEFAULT_CIRCUIT_BREAKER])
      (by simp [midConn, DEFAULT_CIRCUIT_BREAKER])).trans rfl
  rw [fail5, e1, e2, e3, e4, e5]

/-- C4: after five consecutive failures from a freshly connected state with
the default configuration, the breaker is OPEN with failure count 5; while
fewer than 60000 ms have passed since the last failure,
canAttemptConnection is false; once 60000 ms have elapsed it is true (the
one allowed trial); if the re-evaluation is another failure the breaker
records it and canAttemptConnection is false again for a fresh 60000 ms
window; a successful connection (the open handler) zeroes the failure
counter and forces CLOSED. -/
theorem C4_circuit_breaker (t1 t2 t3 t4 t5 : ℤ) :
    (fail5 t1 t2 t3 t4 t5).circuitBreakerState = CircuitBreakerState.OPEN ∧
    (fail5 t1 t2 t3 t4 t5).failureCount = 5 ∧
    (fail5 t1 t2 t3 t4 t5).lastFailureTime = t5 ∧
    (∀ now : ℤ, now - t5 < 60000 →
      canAttemptConnection (fail5 t1 t2 t3 t4 t5) now = false) ∧
    (∀ now : ℤ, 60000 ≤ now - t5 →
      canAttemptConnection (fail5 t1 t2 t3 t4 t5) now = true) ∧
    (∀ t6 now : ℤ, now - t6 < 60000 →
      canAttemptConnection (failStep (fail5 t1 t2 t3 t4 t5) t6) now = false) ∧
    (∀ c : OpenAIRealtimeConnection,
      (handleOpen c).failureCount = 0 ∧
      (handleOpen c).circuitBreakerState = CircuitBreakerState.CLOSED) := by
  rw [fail5_eq]
  refine ⟨rfl, rfl, rfl, ?_, ?_, ?_, ?_⟩
  · intro now hlt
    simp [canAttemptConnection, openedConn, DEFAULT_CIRCUIT_BREAKER]
    omega
  · intro now hge
    simp [canAttemptConnection, openedConn, DEFAULT_CIRCUIT_BREAKER]
    omega
  · intro t6 now hlt
    have e6 : failStep (openedConn t5) t6 = openedConn6 t6 :=
      (failStep_opens (openedConn t5) t6
        (by simp [openedConn, DEFAULT_CIRCUIT_BREAKER])
        (by simp [openedConn, DEFAULT_CIRCUIT_BREAKER])).trans rfl
    rw [e6]
    simp [canAttemptConnection, openedConn6, DEFAULT_CIRCUIT_BREAKER]
    omega
  · intro c
    exact ⟨by simp [handleOpen, resetCircuitBreaker],
           by simp [handleOpen, resetCircuitBreaker]⟩

/-- Witness for C4 with all five failures at 1000 ms. -/
theorem C4_circuit_breaker_witness :
    canAttemptConnection (fail5 1000 1000 1000 1000 1000) 2000 = false ∧
    canAttemptConnection (fail5 1000 1000 1000 1000 1000) 61000 = true ∧
    canAttemptConnection
      (failStep (fail5 1000 1000 1000 1000 1000) 70000) 80000 = false := by
  have h := C4_circuit_breaker 1000 1000 1000 1000 1000
  exact ⟨h.2.2.2.1 2000 (by decide), h.2.2.2.2.1 61000 (by decide),
         h.2.2.2.2.2.1 70000 80000 (by decide)⟩

/-- Results of allow() calls all landing inside the current window, from
an arbitrary starting count k: the i-th call is accepted exactly while the
running count k + i is still below maxMessages, and neither the window
start nor the configuration ever changes. -/
theorem allowRun_in_window (maxM : ℕ) (winMs w : ℤ) (k : ℕ) (ts : List ℤ)
    (hts : ∀ t ∈ ts, t - w < winMs) :
    (allowRun ⟨k, w, maxM, winMs⟩ ts).1 =
      (List.range ts.length).map (fun i => decide (k + i < maxM)) := by
  induction ts generalizing k with
  | nil => simp [allowRun]
  | cons t ts ih =>
    have hlt : t - w < winMs := hts t (by simp)
    have hnr : ¬ winMs ≤ t - w := by omega
    have hts2 : ∀ u ∈ ts, u - w < winMs := fun u hu => hts u (by simp [hu])
    by_cases hk : maxM ≤ k
    · have hall : ∀ j : ℕ, ¬ (k + j < maxM) := by omega
      have hrec := ih k hts2
      simp only [allowRun, RateLimiter.allow, hnr, if_false, reduceIte, hk,
                 if_true]
      simp only [List.length_cons, List.range_succ_eq_map, List.map_cons,
                 List.map_map, List.cons.injEq]
      constructor
      · simp
        omega
      · rw [hrec]
        refine List.map_congr_left ?_
        intro i hi
        simp only [Function.comp]
        rw [decide_eq_decide]
        omega
    · have hrec := ih (k + 1) hts2
      simp only [allowRun, RateLimiter.allow, hnr, if_false, reduceIte, hk,
                 if_true]
      simp only [List.length_cons, List.range_succ_eq_map, List.map_cons,
                 List.map_map, List.cons.injEq]
      constructor
      · simp; omega
      · rw [hrec]
        refine List.map_congr_left ?_
        intro i hi
        simp only [Function.comp]
        rw [decide_eq_decide]
        omega

/-- C7: starting a fresh window, every call inside the window is accepted
exactly while fewer than maxMessages calls have been counted, so the first
maxMessages calls return true and the next returns false; the first call
made after windowMs has elapsed since the window start rolls the window
over (count restarted at 1, window start moved) and returns true; a
rejecting call changes nothing in the limiter state. -/
theorem C7_rate_limiter :
    (∀ (maxM : ℕ) (winMs w : ℤ) (ts : List ℤ), (∀ t ∈ ts, t - w < winMs) →
      (allowRun ⟨0, w, maxM, winMs⟩ ts).1 =
        (List.range ts.length).map (fun i => decide (i < maxM))) ∧
    (∀ (rl : RateLimiter) (t : ℤ), 0 < rl.maxMessages →
      rl.windowMs ≤ t - rl.windowStart →
      rl.allow t = (true, { rl with messageCount := 1, windowStart := t })) ∧
    (∀ (rl : RateLimiter) (t : ℤ), 0 < rl.maxMessages →
      (rl.allow t).1 = false → (rl.allow t).2 = rl) := by
  refine ⟨?_, ?_, ?_⟩
  · intro maxM winMs w ts hts
    simpa using allowRun_in_window maxM winMs w 0 ts hts
  · intro rl t hmax hroll
    have hc : ¬ rl.maxMessages ≤ 0 := by omega
    simp [RateLimiter.allow, hroll, hc]
  · intro rl t hmax hrej
    by_cases hroll : rl.windowMs ≤ t - rl.windowStart
    · have hc : ¬ rl.maxMessages ≤ 0 := by omega
      simp [RateLimiter.allow, hroll, hc] at hrej
    · by_cases hfull : rl.maxMessages ≤ rl.messageCount
      · simp [RateLimiter.allow, hroll, hfull]
      · simp [RateLimiter.allow, hroll, hfull] at hrej

/-- Witness for C7: limit 2 per 10 ms window starting at 0; calls at
1, 2 and 3 give true, true, false; a call at 10 rolls the window over; a
rejected call at 5 from the full window leaves the state unchanged. -/
theorem C7_rate_limiter_witness :
    (allowRun ⟨0, 0, 2, 10⟩ [1, 2, 3]).1 = [true, true, false] ∧
    RateLimiter.allow ⟨2, 0, 2, 10⟩ 10 = (true, ⟨1, 10, 2, 10⟩) ∧
    (RateLimiter.allow ⟨2, 0, 2, 10⟩ 5).2 = ⟨2, 0, 2, 10⟩ := by
  refine ⟨?_, ?_, ?_⟩
  · have h := C7_rate_limiter.1 2 10 0 [1, 2, 3] (by decide)
    simpa using h
  · exact C7_rate_limiter.2.1 ⟨2, 0, 2, 10⟩ 10 (by decide) (by decide)
  · exact C7_rate_limiter.2.2 ⟨2, 0, 2, 10⟩ 5 (by decide) (by decide)
